import Mathlib

/-!
Shallow embedding of `src/tools/mock_weather_provider.py` (the mock weather
D-Bus provider of the watchmate repository).

Modelling decisions:
* Python floats become rationals (`ℚ`); all arithmetic in the script is
  addition and subtraction of bounded values, so no float-specific behaviour
  is relevant to the properties below.
* Unix timestamps (`int(datetime.now().timestamp())`) become an explicit
  `now : ℤ` parameter of each operation.
* Calls to the random number generator become explicit draw arguments.  A
  predicate `Valid` on each draw record states exactly the ranges guaranteed
  by `random.uniform` (inclusive bounds), `random.randint` (inclusive bounds)
  and `random.choice` (an index into the list).
* Methods of `MockWeatherProvider` are state-passing functions: they take the
  object (`self`) and return the object after the call together with the
  method result and the list of D-Bus signals emitted during the call.
-/

/-- One entry of the `WEATHER_CONDITIONS` table: icon code, display label
and temperature offset. -/
structure Condition where
  code : String
  label : String
  offset : ℚ
deriving DecidableEq, Repr

/-- The `CITIES` list of the script. -/
def CITIES : List String := ["New York", "London", "Tokyo", "Paris", "Sydney"]

/-- The `WEATHER_CONDITIONS` table of the script. -/
def WEATHER_CONDITIONS : List Condition :=
  [⟨"clear-sky", "Clear sky", 0⟩,
   ⟨"few-clouds", "Few clouds", 5⟩,
   ⟨"scattered-clouds", "Cloudy", 10⟩,
   ⟨"rain", "Rain", -5⟩,
   ⟨"snow", "Snow", -10⟩,
   ⟨"thunderstorm", "Thunderstorm", 0⟩]

/-- Placeholder condition used as the (never reached) default of list
indexing; `random.choice` always indexes inside the list. -/
def condDefault : Condition := ⟨"", "", 0⟩

/-- The mutable state of a `MockWeatherProvider` object: the fields set by
`__init__` and read or written by the methods. -/
structure MockWeatherProvider where
  location : String
  base_temp : ℚ
  current_condition : Condition
deriving DecidableEq, Repr

/-- Draws consumed by `MockWeatherProvider.__init__`. -/
structure InitDraws where
  cityIdx : ℕ
  baseTemp : ℚ
  condIdx : ℕ
deriving DecidableEq, Repr

/-- Ranges guaranteed by the RNG calls in `__init__`:
`random.choice(CITIES)`, `random.uniform(15.0, 25.0)`,
`random.choice(WEATHER_CONDITIONS)`. -/
def InitDraws.Valid (d : InitDraws) : Prop :=
  d.cityIdx < CITIES.length ∧ 15 ≤ d.baseTemp ∧ d.baseTemp ≤ 25 ∧
    d.condIdx < WEATHER_CONDITIONS.length

instance (d : InitDraws) : Decidable d.Valid := by
  unfold InitDraws.Valid; infer_instance

/-- Python `location or random.choice(CITIES)`: an absent or empty (falsy)
location argument falls back to the random city. -/
def locationOr (location : Option String) (city : String) : String :=
  match location with
  | none => city
  | some s => if s = "" then city else s

/-- `MockWeatherProvider.__init__`. -/
def MockWeatherProvider.init (location : Option String) (d : InitDraws) :
    MockWeatherProvider :=
  { location := locationOr location (CITIES.getD d.cityIdx ""),
    base_temp := d.baseTemp,
    current_condition := WEATHER_CONDITIONS.getD d.condIdx condDefault }

/-- Draws consumed by one call of `GetCurrentWeather`, in source order. -/
structure CurrentDraws where
  jitter : ℚ
  minSpread : ℚ
  maxSpread : ℚ
  sunriseOff : ℕ
  sunsetOff : ℕ
deriving DecidableEq, Repr

/-- Ranges guaranteed by the RNG calls in `GetCurrentWeather`:
`random.uniform(-2.0, 2.0)`, twice `random.uniform(2.0, 5.0)`, and twice
`random.randint(0, 60)` (both bounds inclusive). -/
def CurrentDraws.Valid (d : CurrentDraws) : Prop :=
  -2 ≤ d.jitter ∧ d.jitter ≤ 2 ∧
    2 ≤ d.minSpread ∧ d.minSpread ≤ 5 ∧
    2 ≤ d.maxSpread ∧ d.maxSpread ≤ 5 ∧
    d.sunriseOff ≤ 60 ∧ d.sunsetOff ≤ 60

instance (d : CurrentDraws) : Decidable d.Valid := by
  unfold CurrentDraws.Valid; infer_instance

/-- The dictionary returned by `GetCurrentWeather` (one field per key of the
`a\x7bsv\x7d` mapping). -/
structure CurrentWeatherReport where
  location : String
  temperature : ℚ
  min_temperature : ℚ
  max_temperature : ℚ
  icon_code : String
  timestamp : ℤ
  sunrise : ℕ
  sunset : ℕ
deriving DecidableEq, Repr

/-- `MockWeatherProvider.GetCurrentWeather`.  Returns the object after the
call (the method never assigns to `self`) and the report. -/
def GetCurrentWeather (self : MockWeatherProvider) (d : CurrentDraws)
    (now : ℤ) : MockWeatherProvider × CurrentWeatherReport :=
  let condition_code := self.current_condition.code
  let temp_offset := self.current_condition.offset
  let temp := self.base_temp + temp_offset + d.jitter
  let min_temp := temp - d.minSpread
  let max_temp := temp + d.maxSpread
  let sunrise := 6 * 60 + d.sunriseOff
  let sunset := 18 * 60 + d.sunsetOff
  (self,
   { location := self.location,
     temperature := temp,
     min_temperature := min_temp,
     max_temperature := max_temp,
     icon_code := condition_code,
     timestamp := now,
     sunrise := sunrise,
     sunset := sunset })

example :
    (GetCurrentWeather ⟨"London", 20, ⟨"rain", "Rain", -5⟩⟩
      ⟨1, 2, 3, 10, 20⟩ 7).2 =
    { location := "London", temperature := 16, min_temperature := 14,
      max_temperature := 19, icon_code := "rain", timestamp := 7,
      sunrise := 370, sunset := 1100 } := by
  simp only [GetCurrentWeather]
  norm_num

example : CurrentDraws.Valid ⟨1, 2, 3, 10, 20⟩ := by decide

/-- Draws consumed by one iteration of the loop in `GetForecast`, in source
order: `random.choice(WEATHER_CONDITIONS)`, `random.uniform(-5.0, 5.0)`,
twice `random.uniform(2.0, 5.0)`. -/
structure DayDraws where
  condIdx : ℕ
  baseJitter : ℚ
  minSpread : ℚ
  maxSpread : ℚ
deriving DecidableEq, Repr

/-- Ranges guaranteed by the RNG calls of one forecast-day iteration. -/
def DayDraws.Valid (d : DayDraws) : Prop :=
  d.condIdx < WEATHER_CONDITIONS.length ∧
    -5 ≤ d.baseJitter ∧ d.baseJitter ≤ 5 ∧
    2 ≤ d.minSpread ∧ d.minSpread ≤ 5 ∧
    2 ≤ d.maxSpread ∧ d.maxSpread ≤ 5

instance (d : DayDraws) : Decidable d.Valid := by
  unfold DayDraws.Valid; infer_instance

/-- One element of the `days` list built by `GetForecast`. -/
structure DayEntry where
  min_temperature : ℚ
  max_temperature : ℚ
  icon_code : String
deriving DecidableEq, Repr

/-- Placeholder day entry used as the (never reached) default of list
indexing. -/
def dayDefault : DayEntry := ⟨0, 0, ""⟩

/-- The dictionary returned by `GetForecast`. -/
structure ForecastReport where
  timestamp : ℤ
  days : List DayEntry
deriving DecidableEq, Repr

/-- The body of one iteration of the `for i in range(5)` loop of
`GetForecast`. -/
def forecastDay (self : MockWeatherProvider) (d : DayDraws) : DayEntry :=
  let condition_code := (WEATHER_CONDITIONS.getD d.condIdx condDefault).code
  let day_base := self.base_temp + d.baseJitter
  let min_temp := day_base - d.minSpread
  let max_temp := day_base + d.maxSpread
  { min_temperature := min_temp,
    max_temperature := max_temp,
    icon_code := condition_code }

/-- `MockWeatherProvider.GetForecast`.  `ds i` holds the draws consumed by
loop iteration `i`; the method never assigns to `self`. -/
def GetForecast (self : MockWeatherProvider) (ds : ℕ → DayDraws) (now : ℤ) :
    MockWeatherProvider × ForecastReport :=
  let days := (List.range 5).map (fun i => forecastDay self (ds i))
  (self, { timestamp := now, days := days })

/-- The value a GLib timeout callback returns to keep the timer recurring
(Python `True` at the end of `update_weather`). -/
def GLIB_CONTINUE : Bool := true

/-- `MockWeatherProvider.update_weather`.  Returns the object after the
call, the list of `WeatherUpdated` signals emitted during the call (each
carrying its timestamp argument) and the callback's return value. -/
def update_weather (self : MockWeatherProvider) (condIdx : ℕ) (now : ℤ) :
    MockWeatherProvider × List ℤ × Bool :=
  let self2 := { self with
    current_condition := WEATHER_CONDITIONS.getD condIdx condDefault }
  (self2, [now], GLIB_CONTINUE)

/-!  The `main` function and the event loop. -/

/-- Default of the `--provider-name` argument. -/
def defaultProviderName : String := "MockWeather"

/-- Default of the `--update-interval` argument (seconds). -/
def defaultUpdateInterval : ℤ := 300

/-- The bus name `main` publishes under:
`f'org.example.\x7bargs.provider_name\x7d'`. -/
def serviceName (providerName : String) : String :=
  "org.example." ++ providerName

/-- The object path of `bus.publish(service_name, ('/', provider))`. -/
def publishedObjectPath : String := "/"

/-- Timer registration in `main`: `GLib.timeout_add_seconds` is called with
`provider.update_weather` iff `args.update_interval > 0`; the returned list
holds the periods of the registered recurring timers. -/
def registeredTimers (updateInterval : ℤ) : List ℤ :=
  if updateInterval > 0 then [updateInterval] else []

/-- One dispatch of the GLib main loop: an incoming bus call of one of the
two methods, or a firing of the registered timer (whose callback is
`update_weather`).  Each event carries the draws and the clock reading of
its handler. -/
inductive Event where
  | callGetCurrentWeather (d : CurrentDraws) (now : ℤ)
  | callGetForecast (ds : ℕ → DayDraws) (now : ℤ)
  | timerFire (condIdx : ℕ) (now : ℤ)

/-- A timer-fire event can only be dispatched when a timer was registered;
bus calls are always possible. -/
def Event.Allowed (timers : List ℤ) : Event → Prop
  | .timerFire _ _ => timers ≠ []
  | _ => True

/-- Dispatching one event: the state after the handler and the signals it
emitted. -/
def dispatch (s : MockWeatherProvider) : Event → MockWeatherProvider × List ℤ
  | .callGetCurrentWeather d now => ((GetCurrentWeather s d now).1, [])
  | .callGetForecast ds now => ((GetForecast s ds now).1, [])
  | .timerFire condIdx now =>
      let r := update_weather s condIdx now
      (r.1, r.2.1)

/-- Running the main loop over a list of dispatched events, collecting every
`WeatherUpdated` signal emitted during the process lifetime. -/
def runLoop (s : MockWeatherProvider) : List Event → MockWeatherProvider × List ℤ
  | [] => (s, [])
  | e :: es =>
      let r := dispatch s e
      let rest := runLoop r.1 es
      (rest.1, r.2 ++ rest.2)

/-- Outcome of the `try` block of `main`: `loop.run()` returning (normal
shutdown), a `KeyboardInterrupt`, or any other exception with its message. -/
inductive RunOutcome where
  | normal
  | keyboardInterrupt
  | exception (msg : String)

/-- The return value of `main` for each outcome of its `try` block: the two
`except` clauses fall through to (or execute) `return`, and
`exit(main())` makes it the process exit code. -/
def mainExitCode : RunOutcome → ℕ
  | .normal => 0
  | .keyboardInterrupt => 0
  | .exception _ => 1

/-- The six icon tags of the `WEATHER_CONDITIONS` table. -/
def knownIconCodes : List String :=
  ["clear-sky", "few-clouds", "scattered-clouds", "rain", "snow",
   "thunderstorm"]

/-- Sample provider state used to instantiate theorems. -/
def sampleProvider : MockWeatherProvider :=
  ⟨"London", 20, ⟨"rain", "Rain", -5⟩⟩

/-- Sample valid draws for `GetCurrentWeather`. -/
def sampleCurrent : CurrentDraws := ⟨1, 2, 3, 10, 20⟩

/-- Sample valid draws for one forecast day. -/
def sampleDay : DayDraws := ⟨2, 3, 2, 4⟩

/-- An element picked by a valid index is a member of the table. -/
lemma getD_mem_conditions (i : ℕ) (h : i < WEATHER_CONDITIONS.length) :
    WEATHER_CONDITIONS.getD i condDefault ∈ WEATHER_CONDITIONS := by
  rw [List.getD_eq_getElem _ _ h]
  exact List.getElem_mem h

/-- The icon code of any member of the table is a known tag. -/
lemma code_mem_known (c : Condition) (h : c ∈ WEATHER_CONDITIONS) :
    c.code ∈ knownIconCodes := by
  simp only [WEATHER_CONDITIONS, List.mem_cons, List.not_mem_nil, or_false] at h
  rcases h with h | h | h | h | h | h <;> subst h <;> decide

/-- C1: each call of `GetCurrentWeather` reports
temperature = base temperature + condition offset + a jitter in [-2, 2],
min_temperature = temperature minus a spread in [2, 5],
max_temperature = temperature plus an independent spread in [2, 5],
and timestamp = the Unix time at the call. -/
theorem getCurrentWeather_field_spec (s : MockWeatherProvider)
    (d : CurrentDraws) (now : ℤ) (hv : d.Valid) :
    (GetCurrentWeather s d now).2.temperature
        = s.base_temp + s.current_condition.offset + d.jitter ∧
    -2 ≤ d.jitter ∧ d.jitter ≤ 2 ∧
    (GetCurrentWeather s d now).2.min_temperature
        = (GetCurrentWeather s d now).2.temperature - d.minSpread ∧
    2 ≤ d.minSpread ∧ d.minSpread ≤ 5 ∧
    (GetCurrentWeather s d now).2.max_temperature
        = (GetCurrentWeather s d now).2.temperature + d.maxSpread ∧
    2 ≤ d.maxSpread ∧ d.maxSpread ≤ 5 ∧
    (GetCurrentWeather s d now).2.timestamp = now := by
  obtain ⟨h1, h2, h3, h4, h5, h6, _, _⟩ := hv
  exact ⟨rfl, h1, h2, rfl, h3, h4, rfl, h5, h6, rfl⟩

/-- Witness for C1 at a concrete provider state, draws and clock. -/
theorem getCurrentWeather_field_spec_witness :
    sampleCurrent.Valid ∧
    ((GetCurrentWeather sampleProvider sampleCurrent 7).2.temperature
        = sampleProvider.base_temp + sampleProvider.current_condition.offset
            + sampleCurrent.jitter ∧
     -2 ≤ sampleCurrent.jitter ∧ sampleCurrent.jitter ≤ 2 ∧
     (GetCurrentWeather sampleProvider sampleCurrent 7).2.min_temperature
        = (GetCurrentWeather sampleProvider sampleCurrent 7).2.temperature
            - sampleCurrent.minSpread ∧
     2 ≤ sampleCurrent.minSpread ∧ sampleCurrent.minSpread ≤ 5 ∧
     (GetCurrentWeather sampleProvider sampleCurrent 7).2.max_temperature
        = (GetCurrentWeather sampleProvider sampleCurrent 7).2.temperature
            + sampleCurrent.maxSpread ∧
     2 ≤ sampleCurrent.maxSpread ∧ sampleCurrent.maxSpread ≤ 5 ∧
     (GetCurrentWeather sampleProvider sampleCurrent 7).2.timestamp = 7) :=
  ⟨by decide,
   getCurrentWeather_field_spec sampleProvider sampleCurrent 7 (by decide)⟩

/-- C4 counterexample: the claim that some outcome of the randomness makes
the ordering min_temperature ≤ temperature ≤ max_temperature fail is false:
no state, valid draws and clock violate the ordering. -/
theorem temperature_order_cannot_fail :
    ¬ ∃ (s : MockWeatherProvider) (d : CurrentDraws) (now : ℤ),
        d.Valid ∧
        ¬ ((GetCurrentWeather s d now).2.min_temperature ≤
             (GetCurrentWeather s d now).2.temperature ∧
           (GetCurrentWeather s d now).2.temperature ≤
             (GetCurrentWeather s d now).2.max_temperature) := by
  rintro ⟨s, d, now, hv, hno⟩
  obtain ⟨_, _, h3, _, h5, _, _, _⟩ := hv
  apply hno
  constructor
  · simp only [GetCurrentWeather]
    linarith
  · simp only [GetCurrentWeather]
    linarith

/-- C4 amended: every call of `GetCurrentWeather` with draws in the ranges
the RNG guarantees satisfies
min_temperature ≤ temperature ≤ max_temperature, since both spreads are
drawn from [2, 5] and hence nonnegative. -/
theorem temperature_order_holds (s : MockWeatherProvider) (d : CurrentDraws)
    (now : ℤ) (hv : d.Valid) :
    (GetCurrentWeather s d now).2.min_temperature ≤
        (GetCurrentWeather s d now).2.temperature ∧
    (GetCurrentWeather s d now).2.temperature ≤
        (GetCurrentWeather s d now).2.max_temperature := by
  obtain ⟨_, _, h3, _, h5, _, _, _⟩ := hv
  constructor
  · simp only [GetCurrentWeather]
    linarith
  · simp only [GetCurrentWeather]
    linarith

/-- Witness for the amended C4 at a concrete provider state and draws. -/
theorem temperature_order_holds_witness :
    sampleCurrent.Valid ∧
    ((GetCurrentWeather sampleProvider sampleCurrent 7).2.min_temperature ≤
        (GetCurrentWeather sampleProvider sampleCurrent 7).2.temperature ∧
     (GetCurrentWeather sampleProvider sampleCurrent 7).2.temperature ≤
        (GetCurrentWeather sampleProvider sampleCurrent 7).2.max_temperature) :=
  ⟨by decide, temperature_order_holds sampleProvider sampleCurrent 7 (by decide)⟩

/-- C5: each call of `GetCurrentWeather` reports sunrise in [360, 420] and
sunset in [1080, 1140] minutes since midnight. -/
theorem sunrise_sunset_bounds (s : MockWeatherProvider) (d : CurrentDraws)
    (now : ℤ) (hv : d.Valid) :
    360 ≤ (GetCurrentWeather s d now).2.sunrise ∧
    (GetCurrentWeather s d now).2.sunrise ≤ 420 ∧
    1080 ≤ (GetCurrentWeather s d now).2.sunset ∧
    (GetCurrentWeather s d now).2.sunset ≤ 1140 := by
  obtain ⟨_, _, _, _, _, _, h7, h8⟩ := hv
  simp only [GetCurrentWeather]
  omega

/-- Witness for C5 at a concrete provider state and draws. -/
theorem sunrise_sunset_bounds_witness :
    sampleCurrent.Valid ∧
    (360 ≤ (GetCurrentWeather sampleProvider sampleCurrent 7).2.sunrise ∧
     (GetCurrentWeather sampleProvider sampleCurrent 7).2.sunrise ≤ 420 ∧
     1080 ≤ (GetCurrentWeather sampleProvider sampleCurrent 7).2.sunset ∧
     (GetCurrentWeather sampleProvider sampleCurrent 7).2.sunset ≤ 1140) :=
  ⟨by decide, sunrise_sunset_bounds sampleProvider sampleCurrent 7 (by decide)⟩

/-- C7: `GetCurrentWeather` and `GetForecast` leave the snapshot unchanged,
and `update_weather` changes at most the current condition, leaving
location and base temperature unchanged. -/
theorem snapshot_frame (s : MockWeatherProvider) (d : CurrentDraws)
    (ds : ℕ → DayDraws) (condIdx : ℕ) (t1 t2 t3 : ℤ) :
    (GetCurrentWeather s d t1).1 = s ∧
    (GetForecast s ds t2).1 = s ∧
    (update_weather s condIdx t3).1.location = s.location ∧
    (update_weather s condIdx t3).1.base_temp = s.base_temp :=
  ⟨rfl, rfl, rfl, rfl⟩

/-- C8: the process exit code is 0 on normal shutdown and on a user
interrupt, and 1 on any other exception reaching the top-level handler. -/
theorem exit_code_spec :
    mainExitCode .normal = 0 ∧
    mainExitCode .keyboardInterrupt = 0 ∧
    ∀ msg, mainExitCode (.exception msg) = 1 :=
  ⟨rfl, rfl, fun _ => rfl⟩

/-- C10: the published bus name is the string "org.example." followed by
the provider-name argument, at object path "/", and the default argument
yields "org.example.MockWeather". -/
theorem service_name_spec :
    (∀ n, serviceName n = "org.example." ++ n) ∧
    publishedObjectPath = "/" ∧
    serviceName defaultProviderName = "org.example.MockWeather" :=
  ⟨fun _ => rfl, rfl, rfl⟩

/-- Entry `i < 5` of the forecast is the day built from the draws of loop
iteration `i`. -/
lemma forecast_days_getD (s : MockWeatherProvider) (ds : ℕ → DayDraws)
    (now : ℤ) (i : ℕ) (h : i < 5) :
    (GetForecast s ds now).2.days.getD i dayDefault = forecastDay s (ds i) := by
  have hlen : i < ((List.range 5).map (fun j => forecastDay s (ds j))).length := by
    simpa using h
  simp only [GetForecast]
  rw [List.getD_eq_getElem _ _ hlen]
  simp

/-- C2: each call of `GetForecast` returns exactly 5 day entries; entry `i`
depends only on the draws of iteration `i`: its condition is picked from
the 6-variant table, its day base is the overall base plus a value in
[-5, 5], and its minimum and maximum are the day base minus and plus
independent spreads in [2, 5]. -/
theorem getForecast_five_days (s : MockWeatherProvider) (ds : ℕ → DayDraws)
    (now : ℤ) (hv : ∀ i, i < 5 → (ds i).Valid) :
    (GetForecast s ds now).2.days.length = 5 ∧
    ∀ i, i < 5 →
      ((GetForecast s ds now).2.days.getD i dayDefault).icon_code
          = (WEATHER_CONDITIONS.getD (ds i).condIdx condDefault).code ∧
      WEATHER_CONDITIONS.getD (ds i).condIdx condDefault ∈ WEATHER_CONDITIONS ∧
      ((GetForecast s ds now).2.days.getD i dayDefault).min_temperature
          = (s.base_temp + (ds i).baseJitter) - (ds i).minSpread ∧
      ((GetForecast s ds now).2.days.getD i dayDefault).max_temperature
          = (s.base_temp + (ds i).baseJitter) + (ds i).maxSpread ∧
      -5 ≤ (ds i).baseJitter ∧ (ds i).baseJitter ≤ 5 ∧
      2 ≤ (ds i).minSpread ∧ (ds i).minSpread ≤ 5 ∧
      2 ≤ (ds i).maxSpread ∧ (ds i).maxSpread ≤ 5 := by
  refine ⟨by simp [GetForecast], ?_⟩
  intro i hi
  obtain ⟨hc, h1, h2, h3, h4, h5, h6⟩ := hv i hi
  rw [forecast_days_getD s ds now i hi]
  exact ⟨rfl, getD_mem_conditions _ hc, rfl, rfl, h1, h2, h3, h4, h5, h6⟩

/-- Witness for C2 at a concrete provider state and draw stream. -/
theorem getForecast_five_days_witness :
    sampleDay.Valid ∧
    ((GetForecast sampleProvider (fun _ => sampleDay) 9).2.days.length = 5 ∧
     ∀ i, i < 5 →
       ((GetForecast sampleProvider (fun _ => sampleDay) 9).2.days.getD i
            dayDefault).icon_code
           = (WEATHER_CONDITIONS.getD sampleDay.condIdx condDefault).code ∧
       WEATHER_CONDITIONS.getD sampleDay.condIdx condDefault
           ∈ WEATHER_CONDITIONS ∧
       ((GetForecast sampleProvider (fun _ => sampleDay) 9).2.days.getD i
            dayDefault).min_temperature
           = (sampleProvider.base_temp + sampleDay.baseJitter)
               - sampleDay.minSpread ∧
       ((GetForecast sampleProvider (fun _ => sampleDay) 9).2.days.getD i
            dayDefault).max_temperature
           = (sampleProvider.base_temp + sampleDay.baseJitter)
               + sampleDay.maxSpread ∧
       -5 ≤ sampleDay.baseJitter ∧ sampleDay.baseJitter ≤ 5 ∧
       2 ≤ sampleDay.minSpread ∧ sampleDay.minSpread ≤ 5 ∧
       2 ≤ sampleDay.maxSpread ∧ sampleDay.maxSpread ≤ 5) := by
  have hsd : sampleDay.Valid := by decide
  exact ⟨hsd, getForecast_five_days sampleProvider (fun _ => sampleDay) 9
    (fun _ _ => hsd)⟩

/-- C3: each invocation of `update_weather` sets the current condition to a
member of the 6-variant table, emits exactly one `WeatherUpdated` signal
whose timestamp is at most the clock at the call and at least any instant
before the call, and returns the continue value so the timer keeps
recurring. -/
theorem update_weather_spec (s : MockWeatherProvider) (condIdx : ℕ)
    (now tBefore : ℤ) (hc : condIdx < WEATHER_CONDITIONS.length)
    (ht : tBefore ≤ now) :
    (update_weather s condIdx now).1.current_condition ∈ WEATHER_CONDITIONS ∧
    (update_weather s condIdx now).2.1 = [now] ∧
    (∀ t ∈ (update_weather s condIdx now).2.1, tBefore ≤ t ∧ t ≤ now) ∧
    (update_weather s condIdx now).2.2 = GLIB_CONTINUE := by
  refine ⟨getD_mem_conditions _ hc, rfl, ?_, rfl⟩
  intro t htm
  simp only [update_weather, List.mem_singleton] at htm
  subst htm
  exact ⟨ht, le_refl _⟩

/-- Witness for C3 at a concrete provider state, index and clocks. -/
theorem update_weather_spec_witness :
    3 < WEATHER_CONDITIONS.length ∧ (2 : ℤ) ≤ 9 ∧
    ((update_weather sampleProvider 3 9).1.current_condition
        ∈ WEATHER_CONDITIONS ∧
     (update_weather sampleProvider 3 9).2.1 = [9] ∧
     (∀ t ∈ (update_weather sampleProvider 3 9).2.1, 2 ≤ t ∧ t ≤ 9) ∧
     (update_weather sampleProvider 3 9).2.2 = GLIB_CONTINUE) :=
  ⟨by decide, by decide,
   update_weather_spec sampleProvider 3 9 2 (by decide) (by decide)⟩

/-- C6: the current condition is a member of the 6-variant table after
initialization and after `update_weather`, and every icon code reported by
`GetCurrentWeather` or contained in a `GetForecast` day entry is one of the
6 known tags. -/
theorem icon_code_invariant (loc : Option String) (di : InitDraws)
    (s : MockWeatherProvider) (d : CurrentDraws) (ds : ℕ → DayDraws)
    (condIdx : ℕ) (t1 t2 t3 : ℤ) (hdi : di.Valid)
    (hs : s.current_condition ∈ WEATHER_CONDITIONS)
    (hds : ∀ i, (ds i).Valid) (hc : condIdx < WEATHER_CONDITIONS.length) :
    (MockWeatherProvider.init loc di).current_condition ∈ WEATHER_CONDITIONS ∧
    (GetCurrentWeather s d t1).2.icon_code ∈ knownIconCodes ∧
    (∀ e ∈ (GetForecast s ds t2).2.days, e.icon_code ∈ knownIconCodes) ∧
    (update_weather s condIdx t3).1.current_condition ∈ WEATHER_CONDITIONS := by
  refine ⟨getD_mem_conditions _ hdi.2.2.2, code_mem_known _ hs, ?_,
    getD_mem_conditions _ hc⟩
  intro e he
  simp only [GetForecast, List.mem_map, List.mem_range] at he
  obtain ⟨i, _, rfl⟩ := he
  exact code_mem_known _ (getD_mem_conditions _ (hds i).1)

/-- Witness for C6 at concrete states, draws, index and clocks. -/
theorem icon_code_invariant_witness :
    InitDraws.Valid ⟨1, 18, 4⟩ ∧
    sampleProvider.current_condition ∈ WEATHER_CONDITIONS ∧
    sampleDay.Valid ∧
    3 < WEATHER_CONDITIONS.length ∧
    ((MockWeatherProvider.init none ⟨1, 18, 4⟩).current_condition
        ∈ WEATHER_CONDITIONS ∧
     (GetCurrentWeather sampleProvider sampleCurrent 7).2.icon_code
        ∈ knownIconCodes ∧
     (∀ e ∈ (GetForecast sampleProvider (fun _ => sampleDay) 9).2.days,
        e.icon_code ∈ knownIconCodes) ∧
     (update_weather sampleProvider 3 11).1.current_condition
        ∈ WEATHER_CONDITIONS) := by
  have hsd : sampleDay.Valid := by decide
  exact ⟨by decide, by decide, hsd, by decide,
    icon_code_invariant none ⟨1, 18, 4⟩ sampleProvider sampleCurrent
      (fun _ => sampleDay) 3 7 9 11 (by decide) (by decide)
      (fun _ => hsd) (by decide)⟩

/-- C9: with update interval 0 no timer is registered, so no timer-fire
event can be dispatched, and since the timer callback is the only emitter
of `WeatherUpdated`, no signal is emitted for the process lifetime. -/
theorem no_timer_no_signals (s : MockWeatherProvider) (es : List Event)
    (h : ∀ e ∈ es, e.Allowed (registeredTimers 0)) :
    (runLoop s es).2 = [] := by
  induction es generalizing s with
  | nil => rfl
  | cons e es ih =>
    have he := h e (List.mem_cons_self e es)
    have hes : ∀ x ∈ es, x.Allowed (registeredTimers 0) :=
      fun x hx => h x (List.mem_cons_of_mem e hx)
    cases e with
    | callGetCurrentWeather d now => simp [runLoop, dispatch, ih _ hes]
    | callGetForecast ds now => simp [runLoop, dispatch, ih _ hes]
    | timerFire condIdx now =>
        have hempty : registeredTimers 0 = [] := by simp [registeredTimers]
        exact absurd hempty he

/-- Witness for C9 on a concrete event list that holds only bus calls. -/
theorem no_timer_no_signals_witness :
    (∀ e ∈ [Event.callGetCurrentWeather sampleCurrent 7,
            Event.callGetForecast (fun _ => sampleDay) 9],
        e.Allowed (registeredTimers 0)) ∧
    (runLoop sampleProvider
        [Event.callGetCurrentWeather sampleCurrent 7,
         Event.callGetForecast (fun _ => sampleDay) 9]).2 = [] := by
  have h : ∀ e ∈ [Event.callGetCurrentWeather sampleCurrent 7,
      Event.callGetForecast (fun _ => sampleDay) 9],
      e.Allowed (registeredTimers 0) := by
    intro e he
    simp only [List.mem_cons, List.not_mem_nil, or_false] at he
    rcases he with he | he <;> subst he <;> exact trivial
  exact ⟨h, no_timer_no_signals sampleProvider _ h⟩

